import Mathlib

/-!
Shallow embedding of the dotcom-bubble market simulator
(`src/lib/stockMarketSimulation` hook and the portfolio operations of
`src/web/src/App.tsx`) and proofs of the specification claims.

Conventions:
* JS `number` values carrying prices, probabilities and factors are
  modelled as `ℚ` (exact arithmetic in place of IEEE doubles).
* Every `Math.random()` call site receives its raw draw `u` as an
  explicit input; `getRandomFloat min max` then computes
  `u * (max - min) + min` exactly as the source does.
* Date strings `"YYYY-MM-DD"` are modelled as `SimDate` records; the
  source's lexicographic string comparison coincides with the
  lexicographic (year, month, day) order for the four-digit years the
  simulation uses.
-/

/-- Bubble stages of the market state machine. -/
inductive BubbleStage where
  | early | growth | mania | peak | decline | crash
deriving DecidableEq, Repr

/-- Volatility tiers of a stock. -/
inductive VolatilityTier where
  | low | medium | high | extreme
deriving DecidableEq, Repr

/-- Survival-chance tiers of a stock. -/
inductive SurvivalTier where
  | veryLow | low | medium | high | veryHigh
deriving DecidableEq, Repr

/-- News impact tags. -/
inductive NewsImpact where
  | positive | negative | neutral
deriving DecidableEq, Repr

/-- A calendar date `YYYY-MM-DD`. -/
structure SimDate where
  year : Int
  month : Int
  day : Int
deriving DecidableEq, Repr

/-- Lexicographic strict order on dates; models the `<` comparison of the
formatted `"YYYY-MM-DD"` strings. -/
def SimDate.lt (a b : SimDate) : Bool :=
  if a.year ≠ b.year then decide (a.year < b.year)
  else if a.month ≠ b.month then decide (a.month < b.month)
  else decide (a.day < b.day)

/-- Lexicographic order on dates; models the `>=`/`<=` comparisons of the
formatted `"YYYY-MM-DD"` strings. -/
def SimDate.le (a b : SimDate) : Bool :=
  !(SimDate.lt b a)

/-- Gregorian leap-year test (the rule `Date` uses). -/
def isLeapYear (y : Int) : Bool :=
  y % 4 == 0 && (y % 100 != 0 || y % 400 == 0)

/-- Days in a month of a given year. -/
def daysInMonth (y m : Int) : Int :=
  if m = 2 then (if isLeapYear y then 29 else 28)
  else if m = 4 ∨ m = 6 ∨ m = 9 ∨ m = 11 then 30
  else 31

/-- Successor day in the Gregorian calendar. -/
def nextDay (d : SimDate) : SimDate :=
  if d.day < daysInMonth d.year d.month then ⟨d.year, d.month, d.day + 1⟩
  else if d.month < 12 then ⟨d.year, d.month + 1, 1⟩
  else ⟨d.year + 1, 1, 1⟩

/-- `addDays(dateString, days)` of the source for a non-negative number of
days: iterate the calendar successor. -/
def addDays (d : SimDate) (n : Nat) : SimDate :=
  nextDay^[n] d

/-- Number of leap years `k` with `0 ≤ k < y` (for `y ≥ 1`). -/
def leapsBefore (y : Int) : Int :=
  (y - 1) / 4 - (y - 1) / 100 + (y - 1) / 400 + 1

/-- Days contained in the months of year `y` strictly before month `m`;
`m` is passed as the `Nat` `m - 1` counting the complete months. -/
def daysBeforeMonths (y : Int) : Nat → Int
  | 0 => 0
  | k + 1 => daysBeforeMonths y k + daysInMonth y (k + 1)

/-- Day number of a date (days since the proleptic epoch); only the
difference of two values is ever used, mirroring
`(Date(a).getTime() - Date(b).getTime()) / 86400000`. -/
def dayNumber (d : SimDate) : Int :=
  365 * d.year + leapsBefore d.year + daysBeforeMonths d.year (d.month - 1).toNat + d.day

/-- `getRandomFloat(min, max)` with the raw `Math.random()` draw `u`. -/
def getRandomFloat (mn mx u : ℚ) : ℚ :=
  u * (mx - mn) + mn

/-- `getVolatilityFactor` tier multipliers. -/
def getVolatilityFactor : VolatilityTier → ℚ
  | VolatilityTier.low => 1/2
  | VolatilityTier.medium => 1
  | VolatilityTier.high => 2
  | VolatilityTier.extreme => 7/2

/-- `getSurvivalFactor` tier factors. -/
def getSurvivalFactor : SurvivalTier → ℚ
  | SurvivalTier.veryLow => 1/5
  | SurvivalTier.low => 2/5
  | SurvivalTier.medium => 3/5
  | SurvivalTier.high => 4/5
  | SurvivalTier.veryHigh => 19/20

/-- A `(date, price)` history point. -/
structure PricePoint where
  date : SimDate
  price : ℚ
deriving DecidableEq, Repr

/-- A news item. -/
structure NewsItem where
  id : String
  date : SimDate
  headline : String
  content : String
  impact : NewsImpact
  stockId : Option String := none
deriving DecidableEq, Repr

/-- A stock record. -/
structure Stock where
  id : String
  name : String
  symbol : String
  description : String
  category : String
  price : ℚ
  initialPrice : ℚ
  peakPrice : ℚ
  volatility : VolatilityTier
  survivalChance : SurvivalTier
  priceHistory : List PricePoint
  news : List NewsItem
deriving DecidableEq, Repr

/-- The market state. -/
structure MarketState where
  currentDate : SimDate
  marketIndex : ℚ
  marketIndexHistory : List PricePoint
  bubbleStage : BubbleStage
  volatility : ℚ
  sentiment : ℚ
  news : List NewsItem
  crashWarningShown : Bool
  crashProbability : ℚ
  crashSeverity : ℚ
deriving DecidableEq, Repr

/-- Simulation settings; `crashYear = some 0` is falsy in the source's
`if (settings.crashYear)` check and is treated accordingly. -/
structure SimulationSettings where
  startYear : Int
  startMonth : Int
  crashYear : Option Int := none
  volatilityFactor : ℚ
  timeScale : Nat
  crashRandomness : ℚ
deriving DecidableEq, Repr

/-- The `defaultSettings` constant of the source. -/
def defaultSettings : SimulationSettings :=
  { startYear := 1998
    startMonth := 1
    crashYear := none
    volatilityFactor := 1
    timeScale := 1
    crashRandomness := 7/10 }

/-- The `crashEvents` record: warning date, crash date, recorded peak. -/
structure CrashEvents where
  warningDate : Option SimDate
  crashDate : Option SimDate
  peakIndex : ℚ
deriving DecidableEq, Repr

/-- Headline of the fixed bubble-warning news item. -/
def warningHeadline : String := "Analysts Warn of Potential Tech Bubble"

/-- Body of the fixed bubble-warning news item. -/
def warningContent : String :=
  "Several prominent Wall Street analysts have raised concerns about the sustainability of current tech stock valuations. They point to excessive speculation, particularly in internet stocks with little or no earnings. Some are drawing comparisons to previous market bubbles."

/-- Headline of the fixed market-crash news item. -/
def crashHeadline : String := "MARKET CRASH: Tech Stocks in Free Fall as Bubble Bursts"

/-- Body of the fixed market-crash news item. -/
def crashContent : String :=
  "The tech-heavy market index is experiencing its worst decline in history as the dotcom bubble finally bursts. Internet stocks are leading the selloff, with many losing more than half their value in a matter of days. Panic selling has gripped the market as investors flee what many are now calling vastly overvalued assets."

/-- The warning news item; `now` stands for the `Date.now()` id suffix. -/
def warningNewsItem (now : Nat) (d : SimDate) : NewsItem :=
  { id := "crash-warning-" ++ toString now
    date := d
    headline := warningHeadline
    content := warningContent
    impact := NewsImpact.negative }

/-- The crash news item; `now` stands for the `Date.now()` id suffix. -/
def crashNewsItem (now : Nat) (d : SimDate) : NewsItem :=
  { id := "crash-event-" ++ toString now
    date := d
    headline := crashHeadline
    content := crashContent
    impact := NewsImpact.negative }

/-- Raw `Math.random()` draws consumed by one market update, one field per
call site; `now` models the wall-clock `Date.now()` used only in news ids. -/
structure MarketRands where
  now : Nat
  uCrashRoll : ℚ
  uCrashSent : ℚ
  uLadderSent : ℚ
  uIndex : ℚ
  uGameOver : ℚ
deriving DecidableEq, Repr

/-- Result of one market update: the new market state plus the two side
effects the source performs (`setCrashEvents` peak capture and
`setGameOver(true)`). -/
structure MarketUpdate where
  market : MarketState
  peakCapture : Option ℚ
  gameOverSet : Bool
deriving DecidableEq, Repr

/-- The warning-date guard shared by the tick functions:
`crashEvents.warningDate && newDate >= warningDate && !crashWarningShown`. -/
def warningFires (events : CrashEvents) (prev : MarketState) (newDate : SimDate) : Bool :=
  match events.warningDate with
  | some wd => SimDate.le wd newDate && !prev.crashWarningShown
  | none => false

/-- Crash-date processing shared by the tick functions: once
`newDate >= crashDate`, ramp the crash probability by 0.1 (cap 0.95) and
recompute the severity from the days past the crash date. -/
def probSevAfterCrashDate (events : CrashEvents) (prev : MarketState) (newDate : SimDate)
    (probAfterWarning : ℚ) : ℚ × ℚ :=
  match events.crashDate with
  | some cd =>
    if SimDate.le cd newDate then
      (min (probAfterWarning + 1/10) (19/20),
       min (1/2 + ((dayNumber newDate - dayNumber cd : Int) : ℚ) / 30 * (1/2)) 1)
    else (probAfterWarning, prev.crashSeverity)
  | none => (probAfterWarning, prev.crashSeverity)

/-- The stochastic crash-roll guard:
`crashProbability > 0 && Math.random() < crashProbability * 0.1`. -/
def crashRollFires (prob u : ℚ) : Bool :=
  decide (0 < prob) && decide (u < prob * (1/10))

/-- The calendar stage ladder shared by the tick functions; `base` is the
(stage, volatility, sentiment) triple the ladder falls through to when no
rung applies. A null crash date makes the source's `newDate < crashDate!`
comparison false. -/
def stageLadder (events : CrashEvents) (newDate : SimDate) (uLadderSent : ℚ)
    (base : BubbleStage × ℚ × ℚ) : BubbleStage × ℚ × ℚ :=
  if newDate.year < 1999 then
    (BubbleStage.early, 1/5, 3/5 + getRandomFloat (-(1/10)) (1/10) uLadderSent)
  else if newDate.year = 1999 ∧ newDate.month < 6 then
    (BubbleStage.growth, 3/10, 7/10 + getRandomFloat (-(1/10)) (1/10) uLadderSent)
  else if newDate.year = 1999 ∧ newDate.month ≥ 6 then
    (BubbleStage.mania, 1/2, 17/20 + getRandomFloat (-(1/10)) (1/10) uLadderSent)
  else if newDate.year = 2000 ∧ newDate.month < 3 then
    (BubbleStage.peak, 7/10, 9/10 + getRandomFloat (-(1/5)) (1/10) uLadderSent)
  else if (match events.crashDate with
           | some cd => SimDate.lt newDate cd
           | none => false) then
    (BubbleStage.decline, 4/5, 1/2 + getRandomFloat (-(3/10)) (1/10) uLadderSent)
  else base

/-- Stage/volatility/sentiment selection of `part_008` (lines 269-317):
the crash roll, `else if (newBubbleStage !== 'crash')` the ladder, else
the previous values. -/
def stageSelect (crashRoll : Bool) (events : CrashEvents) (prev : MarketState)
    (newDate : SimDate) (uCrashSent uLadderSent : ℚ) : BubbleStage × ℚ × ℚ :=
  if crashRoll then
    (BubbleStage.crash, 1, 1/10 + getRandomFloat 0 (1/10) uCrashSent)
  else if prev.bubbleStage ≠ BubbleStage.crash then
    stageLadder events newDate uLadderSent (prev.bubbleStage, prev.volatility, prev.sentiment)
  else
    (prev.bubbleStage, prev.volatility, prev.sentiment)

/-- Stage/volatility/sentiment selection of `part_007` (lines 245-290),
where the ladder is a separate `if` guarded by the stage value the crash
roll left behind. -/
def stageSelectSep (crashRoll : Bool) (events : CrashEvents) (prev : MarketState)
    (newDate : SimDate) (uCrashSent uLadderSent : ℚ) : BubbleStage × ℚ × ℚ :=
  let rollSvs :=
    if crashRoll then
      (BubbleStage.crash, 1, 1/10 + getRandomFloat 0 (1/10) uCrashSent)
    else
      (prev.bubbleStage, prev.volatility, prev.sentiment)
  if rollSvs.1 ≠ BubbleStage.crash then stageLadder events newDate uLadderSent rollSvs
  else rollSvs

/-- The stage-dependent index change draw (the `switch (newBubbleStage)`
of both tick functions). -/
def indexChangeFor (stage : BubbleStage) (severity volMult uIndex : ℚ) : ℚ :=
  match stage with
  | BubbleStage.early => getRandomFloat (-(1/100)) (3/100) uIndex * volMult
  | BubbleStage.growth => getRandomFloat (-(1/100)) (1/20) uIndex * volMult
  | BubbleStage.mania => getRandomFloat (-(1/50)) (2/25) uIndex * volMult
  | BubbleStage.peak => getRandomFloat (-(1/20)) (1/20) uIndex * volMult
  | BubbleStage.decline => getRandomFloat (-(2/25)) (1/50) uIndex * volMult
  | BubbleStage.crash => getRandomFloat (-(3/20) * severity) (1/100) uIndex * volMult

/-- The game-over test shared by the tick functions. -/
def gameOverCheck (stage : BubbleStage) (newIndex prevIndex : ℚ) (year : Int)
    (u : ℚ) : Bool :=
  decide (stage = BubbleStage.crash) && decide (newIndex < prevIndex * (7/10)) &&
  decide (2002 ≤ year) && decide ((19/20 : ℚ) < u)

/-- The market-state updater of `advanceSimulation`
(`src/unnamed/part_008`, lines 227-372): warning check, crash-date
probability ramp, stochastic crash roll, calendar stage ladder, index
update, game-over check. -/
def advanceSimulationMarket (settings : SimulationSettings) (events : CrashEvents)
    (prevMarket : MarketState) (r : MarketRands) : MarketUpdate :=
  let newDate := addDays prevMarket.currentDate settings.timeScale
  let warningHit := warningFires events prevMarket newDate
  let newCrashWarningShown := warningHit || prevMarket.crashWarningShown
  let probAfterWarning : ℚ := if warningHit then 3/10 else prevMarket.crashProbability
  let newsAfterWarning :=
    if warningHit then warningNewsItem r.now newDate :: prevMarket.news else prevMarket.news
  let probSev := probSevAfterCrashDate events prevMarket newDate probAfterWarning
  let newCrashProbability := probSev.1
  let newCrashSeverity := probSev.2
  let crashRoll := crashRollFires newCrashProbability r.uCrashRoll
  let svs := stageSelect crashRoll events prevMarket newDate r.uCrashSent r.uLadderSent
  let newBubbleStage := svs.1
  let indexChange :=
    indexChangeFor newBubbleStage newCrashSeverity settings.volatilityFactor r.uIndex
  let newMarketIndex := max 100 (prevMarket.marketIndex * (1 + indexChange))
  let gameOverSet :=
    gameOverCheck newBubbleStage newMarketIndex prevMarket.marketIndex newDate.year r.uGameOver
  let newsFinal :=
    if crashRoll then crashNewsItem r.now newDate :: newsAfterWarning else newsAfterWarning
  let peakCapture : Option ℚ :=
    if crashRoll && decide (events.peakIndex = 0) then some prevMarket.marketIndex else none
  { market :=
      { prevMarket with
        currentDate := newDate
        marketIndex := newMarketIndex
        marketIndexHistory :=
          prevMarket.marketIndexHistory ++ [{ date := newDate, price := newMarketIndex }]
        bubbleStage := newBubbleStage
        volatility := svs.2.1
        sentiment := svs.2.2
        news := newsFinal
        crashWarningShown := newCrashWarningShown
        crashProbability := newCrashProbability
        crashSeverity := newCrashSeverity }
    peakCapture := peakCapture
    gameOverSet := gameOverSet }

/-- The market-state updater of `advanceToNextDay`
(`src/unnamed/part_008`, lines 454-600): identical to the
`advanceSimulation` updater except that the date advances by exactly one
day instead of `settings.timeScale` days. -/
def advanceToNextDayMarket (settings : SimulationSettings) (events : CrashEvents)
    (prevMarket : MarketState) (r : MarketRands) : MarketUpdate :=
  let newDate := addDays prevMarket.currentDate 1
  let warningHit := warningFires events prevMarket newDate
  let newCrashWarningShown := warningHit || prevMarket.crashWarningShown
  let probAfterWarning : ℚ := if warningHit then 3/10 else prevMarket.crashProbability
  let newsAfterWarning :=
    if warningHit then warningNewsItem r.now newDate :: prevMarket.news else prevMarket.news
  let probSev := probSevAfterCrashDate events prevMarket newDate probAfterWarning
  let newCrashProbability := probSev.1
  let newCrashSeverity := probSev.2
  let crashRoll := crashRollFires newCrashProbability r.uCrashRoll
  let svs := stageSelect crashRoll events prevMarket newDate r.uCrashSent r.uLadderSent
  let newBubbleStage := svs.1
  let indexChange :=
    indexChangeFor newBubbleStage newCrashSeverity settings.volatilityFactor r.uIndex
  let newMarketIndex := max 100 (prevMarket.marketIndex * (1 + indexChange))
  let gameOverSet :=
    gameOverCheck newBubbleStage newMarketIndex prevMarket.marketIndex newDate.year r.uGameOver
  let newsFinal :=
    if crashRoll then crashNewsItem r.now newDate :: newsAfterWarning else newsAfterWarning
  let peakCapture : Option ℚ :=
    if crashRoll && decide (events.peakIndex = 0) then some prevMarket.marketIndex else none
  { market :=
      { prevMarket with
        currentDate := newDate
        marketIndex := newMarketIndex
        marketIndexHistory :=
          prevMarket.marketIndexHistory ++ [{ date := newDate, price := newMarketIndex }]
        bubbleStage := newBubbleStage
        volatility := svs.2.1
        sentiment := svs.2.2
        news := newsFinal
        crashWarningShown := newCrashWarningShown
        crashProbability := newCrashProbability
        crashSeverity := newCrashSeverity }
    peakCapture := peakCapture
    gameOverSet := gameOverSet }

/-- The market-state updater of `advanceSimulation` in the comment-stripped
variant of the hook (`src/unnamed/part_007`, lines 211-342), differing from
the `part_008` one only in the separate-`if` stage selection. -/
def advanceSimulationMarketP7 (settings : SimulationSettings) (events : CrashEvents)
    (prevMarket : MarketState) (r : MarketRands) : MarketUpdate :=
  let newDate := addDays prevMarket.currentDate settings.timeScale
  let warningHit := warningFires events prevMarket newDate
  let newCrashWarningShown := warningHit || prevMarket.crashWarningShown
  let probAfterWarning : ℚ := if warningHit then 3/10 else prevMarket.crashProbability
  let newsAfterWarning :=
    if warningHit then warningNewsItem r.now newDate :: prevMarket.news else prevMarket.news
  let probSev := probSevAfterCrashDate events prevMarket newDate probAfterWarning
  let newCrashProbability := probSev.1
  let newCrashSeverity := probSev.2
  let crashRoll := crashRollFires newCrashProbability r.uCrashRoll
  let svs := stageSelectSep crashRoll events prevMarket newDate r.uCrashSent r.uLadderSent
  let newBubbleStage := svs.1
  let indexChange :=
    indexChangeFor newBubbleStage newCrashSeverity settings.volatilityFactor r.uIndex
  let newMarketIndex := max 100 (prevMarket.marketIndex * (1 + indexChange))
  let gameOverSet :=
    gameOverCheck newBubbleStage newMarketIndex prevMarket.marketIndex newDate.year r.uGameOver
  let newsFinal :=
    if crashRoll then crashNewsItem r.now newDate :: newsAfterWarning else newsAfterWarning
  let peakCapture : Option ℚ :=
    if crashRoll && decide (events.peakIndex = 0) then some prevMarket.marketIndex else none
  { market :=
      { prevMarket with
        currentDate := newDate
        marketIndex := newMarketIndex
        marketIndexHistory :=
          prevMarket.marketIndexHistory ++ [{ date := newDate, price := newMarketIndex }]
        bubbleStage := newBubbleStage
        volatility := svs.2.1
        sentiment := svs.2.2
        news := newsFinal
        crashWarningShown := newCrashWarningShown
        crashProbability := newCrashProbability
        crashSeverity := newCrashSeverity }
    peakCapture := peakCapture
    gameOverSet := gameOverSet }

/-- Raw draws consumed by one per-stock price update, one field per call
site. -/
structure StockRands where
  uBase : ℚ
  uMarket : ℚ
  uMania : ℚ
  uCrashImpact : ℚ
  uBankrupt : ℚ
  uClamp : ℚ
deriving DecidableEq, Repr

/-- The per-stock updater of `advanceSimulation` (`src/unnamed/part_008`,
lines 375-428). `market` is the render snapshot the source closes over,
i.e. the pre-tick market state: the appended history point carries the
pre-tick `currentDate`. An empty index history reads as initial index 0
here (the source would produce NaN; reachable states always seed the
history with one point). -/
def updateStock (settings : SimulationSettings) (market : MarketState) (stock : Stock)
    (r : StockRands) : Stock :=
  let volatilityFactor := getVolatilityFactor stock.volatility
  let survivalFactor := getSurvivalFactor stock.survivalChance
  let marketInfluence : ℚ := if market.bubbleStage = BubbleStage.crash then 7/10 else 2/5
  let baseChange0 :=
    getRandomFloat (-(1/20)) (1/20) r.uBase * volatilityFactor * settings.volatilityFactor
  let initialIndex : ℚ :=
    match market.marketIndexHistory with
    | [] => 0
    | p :: _ => p.price
  let marketChange := (market.marketIndex / initialIndex - 1) * marketInfluence
  let baseChange1 := baseChange0 + marketChange * getRandomFloat (1/2) (3/2) r.uMarket
  let baseChange2 :=
    if market.bubbleStage = BubbleStage.mania ∧ stock.category = "E-commerce" then
      baseChange1 + getRandomFloat 0 (1/20) r.uMania
    else baseChange1
  let baseChange3 :=
    if market.bubbleStage = BubbleStage.crash then
      let crashImpact :=
        (1 - survivalFactor) * getRandomFloat (1/100) (1/10) r.uCrashImpact * market.crashSeverity
      let b := baseChange2 - crashImpact
      if stock.survivalChance = SurvivalTier.veryLow ∧
          r.uBankrupt < 1/20 * market.crashSeverity then
        -(1/2)
      else b
    else baseChange2
  let newPrice0 := stock.price * (1 + baseChange3)
  let newPrice1 := max (1/10) newPrice0
  let newPrice2 :=
    if market.bubbleStage ≠ BubbleStage.crash ∧ newPrice1 > stock.peakPrice * (3/2) then
      stock.peakPrice * (1 + getRandomFloat 0 (1/2) r.uClamp)
    else newPrice1
  { stock with
    price := newPrice2
    priceHistory := stock.priceHistory ++ [{ date := market.currentDate, price := newPrice2 }] }

/-- The per-stock updater of `advanceToNextDay` (`src/unnamed/part_008`,
lines 603-656); its source body is textually identical to the
`advanceSimulation` one. -/
def updateStockNextDay (settings : SimulationSettings) (market : MarketState) (stock : Stock)
    (r : StockRands) : Stock :=
  let volatilityFactor := getVolatilityFactor stock.volatility
  let survivalFactor := getSurvivalFactor stock.survivalChance
  let marketInfluence : ℚ := if market.bubbleStage = BubbleStage.crash then 7/10 else 2/5
  let baseChange0 :=
    getRandomFloat (-(1/20)) (1/20) r.uBase * volatilityFactor * settings.volatilityFactor
  let initialIndex : ℚ :=
    match market.marketIndexHistory with
    | [] => 0
    | p :: _ => p.price
  let marketChange := (market.marketIndex / initialIndex - 1) * marketInfluence
  let baseChange1 := baseChange0 + marketChange * getRandomFloat (1/2) (3/2) r.uMarket
  let baseChange2 :=
    if market.bubbleStage = BubbleStage.mania ∧ stock.category = "E-commerce" then
      baseChange1 + getRandomFloat 0 (1/20) r.uMania
    else baseChange1
  let baseChange3 :=
    if market.bubbleStage = BubbleStage.crash then
      let crashImpact :=
        (1 - survivalFactor) * getRandomFloat (1/100) (1/10) r.uCrashImpact * market.crashSeverity
      let b := baseChange2 - crashImpact
      if stock.survivalChance = SurvivalTier.veryLow ∧
          r.uBankrupt < 1/20 * market.crashSeverity then
        -(1/2)
      else b
    else baseChange2
  let newPrice0 := stock.price * (1 + baseChange3)
  let newPrice1 := max (1/10) newPrice0
  let newPrice2 :=
    if market.bubbleStage ≠ BubbleStage.crash ∧ newPrice1 > stock.peakPrice * (3/2) then
      stock.peakPrice * (1 + getRandomFloat 0 (1/2) r.uClamp)
    else newPrice1
  { stock with
    price := newPrice2
    priceHistory := stock.priceHistory ++ [{ date := market.currentDate, price := newPrice2 }] }

/-- All raw draws consumed by one tick: the market draws plus one
`StockRands` bundle per stock position. -/
structure TickRands where
  m : MarketRands
  s : Nat → StockRands

/-- The whole simulation state owned by the hook. -/
structure SimState where
  market : MarketState
  stocks : List Stock
  events : CrashEvents
  gameOver : Bool
deriving DecidableEq, Repr

/-- Applies the side effects of a market update to the simulation state. -/
def applyUpdate (st : SimState) (mu : MarketUpdate) (newStocks : List Stock) : SimState :=
  { market := mu.market
    stocks := newStocks
    events :=
      match mu.peakCapture with
      | some v => { st.events with peakIndex := v }
      | none => st.events
    gameOver := st.gameOver || mu.gameOverSet }

/-- One full `advanceSimulation` call (`src/unnamed/part_008`, lines
223-429): no-op when the game is over, otherwise the market update and the
per-stock updates against the pre-tick market snapshot. -/
def advanceSimulationStep (settings : SimulationSettings) (st : SimState)
    (r : TickRands) : SimState :=
  if st.gameOver then st
  else
    applyUpdate st (advanceSimulationMarket settings st.events st.market r.m)
      (List.mapIdx (fun i stock => updateStock settings st.market stock (r.s i)) st.stocks)

/-- One full `advanceToNextDay` call (`src/unnamed/part_008`, lines
450-657). -/
def advanceToNextDayStep (settings : SimulationSettings) (st : SimState)
    (r : TickRands) : SimState :=
  if st.gameOver then st
  else
    applyUpdate st (advanceToNextDayMarket settings st.events st.market r.m)
      (List.mapIdx (fun i stock => updateStockNextDay settings st.market stock (r.s i)) st.stocks)

/-- One tick of a run: the user either lets the timer call
`advanceSimulation` or presses the next-day button. -/
def tickStep (settings : SimulationSettings) (st : SimState)
    (input : Bool × TickRands) : SimState :=
  if input.1 then advanceToNextDayStep settings st input.2
  else advanceSimulationStep settings st input.2

/-- A run: any finite sequence of ticks from a state. -/
def runTicks (settings : SimulationSettings) : SimState → List (Bool × TickRands) → SimState
  | st, [] => st
  | st, i :: is => runTicks settings (tickStep settings st i) is

/-- Raw draws consumed by `determineCrashTiming`, one field per call
site. -/
structure CrashRands where
  uUserMonth : ℚ
  uChoice : ℚ
  uYear : ℚ
  uMonth : ℚ
  uWarn : ℚ
deriving DecidableEq, Repr

/-- Crash year and month chosen by `determineCrashTiming`
(`src/unnamed/part_008`, lines 186-203): default March 2000; a configured
(truthy) `crashYear` overrides it with a random month unless the year is
2000; otherwise a draw below `crashRandomness` picks a year in 2002-2004
and a month in 1-12. -/
def crashYearMonth (settings : SimulationSettings) (r : CrashRands) : Int × Int :=
  let randomized : Int × Int :=
    if r.uChoice < settings.crashRandomness then
      (Int.floor (r.uYear * 3) + 2002, Int.floor (r.uMonth * 12) + 1)
    else (2000, 3)
  match settings.crashYear with
  | some cy =>
      if cy = 0 then randomized
      else (cy, if cy = 2000 then 3 else Int.floor (r.uUserMonth * 12) + 1)
  | none => randomized

/-- `determineCrashTiming` (`src/unnamed/part_008`, lines 186-220): picks
the crash date (day 15), then a warning date 1-3 months earlier (day 15),
borrowing a year when the month subtraction drops to zero or below. -/
def determineCrashTiming (settings : SimulationSettings) (r : CrashRands) : CrashEvents :=
  let ym := crashYearMonth settings r
  let warningMonthsAhead := Int.floor (r.uWarn * 3) + 1
  let wm := ym.2 - warningMonthsAhead
  let warning : Int × Int := if wm ≤ 0 then (ym.1 - 1, wm + 12) else (ym.1, wm)
  { warningDate := some ⟨warning.1, warning.2, 15⟩
    crashDate := some ⟨ym.1, ym.2, 15⟩
    peakIndex := 0 }

/-- `name.toLowerCase().replace(/[^a-z0-9]/g, '')`: the stock id derived
from the company name. -/
def jsIdOfName (name : String) : String :=
  String.mk ((name.toLower).toList.filter (fun c => c.isLower || c.isDigit))

/-- `name.split(/\s+/)` up to the empty pieces, which contribute nothing
to the symbol (`word[0]` of an empty piece is `undefined`, which
`join('')` renders as the empty string). -/
def jsWords (name : String) : List String :=
  (name.split (fun c => c.isWhitespace)).filter (fun w => w ≠ "")

/-- `generateStockSymbol` (`src/unnamed/part_008`, lines 164-183). -/
def generateStockSymbol (name : String) : String :=
  let symbol := (((jsWords name).filterMap (fun w => w.toList.head?)).map Char.toUpper).take 5
  if symbol.length < 3 then
    let consonants :=
      ((name.toUpper).toList.filter
        (fun c => !(c == 'A' || c == 'E' || c == 'I' || c == 'O' || c == 'U') &&
          !c.isWhitespace)).take (5 - symbol.length)
    String.mk ((symbol ++ consonants).take 5)
  else String.mk symbol

/-- The market state `resetSimulation` installs (`src/unnamed/part_008`,
lines 669-685). -/
def resetMarket (settings : SimulationSettings) : MarketState :=
  let startDate : SimDate := ⟨settings.startYear, settings.startMonth, 1⟩
  { currentDate := startDate
    marketIndex := 1000
    marketIndexHistory := [{ date := startDate, price := 1000 }]
    bubbleStage := BubbleStage.early
    volatility := 1/5
    sentiment := 3/5
    news := []
    crashWarningShown := false
    crashProbability := 0
    crashSeverity := 1/2 }

/-- The per-stock reset mapping of `resetSimulation`
(`src/unnamed/part_008`, lines 687-699). -/
def resetStock (settings : SimulationSettings) (stock : Stock) : Stock :=
  let startDate : SimDate := ⟨settings.startYear, settings.startMonth, 1⟩
  { stock with
    id := jsIdOfName stock.name
    symbol := generateStockSymbol stock.name
    price := stock.initialPrice
    priceHistory := [{ date := startDate, price := stock.initialPrice }]
    news := [] }

/-- `resetSimulation` (`src/unnamed/part_008`, lines 665-706): fresh
market, remapped stocks, cleared game-over flag, re-rolled crash
schedule. -/
def resetSimulation (settings : SimulationSettings) (initialStocks : List Stock)
    (r : CrashRands) : SimState :=
  { market := resetMarket settings
    stocks := initialStocks.map (resetStock settings)
    events := determineCrashTiming settings r
    gameOver := false }

/-- Portfolio mapping (stock id to share count) plus cash, as owned by
`AppContent` in `src/web/src/App.tsx`. -/
structure TradeState where
  portfolio : List (String × ℚ)
  cash : ℚ
deriving DecidableEq, Repr

/-- `prev[stockId]`: the value stored under a key, if any. -/
def lookupShares (p : List (String × ℚ)) (k : String) : Option ℚ :=
  match p with
  | [] => none
  | e :: rest => if e.1 = k then some e.2 else lookupShares rest k

/-- `prev[stockId] || 0`. -/
def lookupOr0 (p : List (String × ℚ)) (k : String) : ℚ :=
  (lookupShares p k).getD 0

/-- `{...prev, [k]: v}` on a JS object: overwrite the key in place if
present, otherwise append it. -/
def setEntry (p : List (String × ℚ)) (k : String) (v : ℚ) : List (String × ℚ) :=
  if p.any (fun e => decide (e.1 = k)) then p.map (fun e => if e.1 = k then (k, v) else e)
  else p ++ [(k, v)]

/-- `delete obj[k]`. -/
def removeEntry (p : List (String × ℚ)) (k : String) : List (String × ℚ) :=
  p.filter (fun e => decide (¬(e.1 = k)))

/-- `buyStock` (`src/web/src/App.tsx`, lines 150-162). -/
def buyStock (stocks : List Stock) (ts : TradeState) (stockId : String)
    (shares : ℚ) : TradeState :=
  match stocks.find? (fun s => s.id == stockId) with
  | none => ts
  | some stock =>
    let cost := stock.price * shares
    if cost > ts.cash then ts
    else
      { cash := ts.cash - cost
        portfolio := setEntry ts.portfolio stockId (lookupOr0 ts.portfolio stockId + shares) }

/-- `sellStock` (`src/web/src/App.tsx`, lines 165-188). -/
def sellStock (stocks : List Stock) (ts : TradeState) (stockId : String)
    (shares : ℚ) : TradeState :=
  match stocks.find? (fun s => s.id == stockId) with
  | none => ts
  | some stock =>
    let currentShares := lookupOr0 ts.portfolio stockId
    let sharesToSell := min shares currentShares
    if sharesToSell ≤ 0 then ts
    else
      let revenue := stock.price * sharesToSell
      let np := setEntry ts.portfolio stockId (currentShares - sharesToSell)
      let np2 := if currentShares - sharesToSell ≤ 0 then removeEntry np stockId else np
      { cash := ts.cash + revenue, portfolio := np2 }

/-- Number of bubble-warning items in a news list. -/
def countWarnings (news : List NewsItem) : Nat :=
  news.countP (fun item => item.headline == warningHeadline)

/-! ### Concrete sample states used by witnesses and counterexamples -/

/-- The start date of a default run. -/
def exDate : SimDate := ⟨1998, 1, 1⟩

/-- A freshly started market (the hook's initial `useState` record). -/
def exMarketEarly : MarketState :=
  { currentDate := exDate
    marketIndex := 1000
    marketIndexHistory := [{ date := exDate, price := 1000 }]
    bubbleStage := BubbleStage.early
    volatility := 1/5
    sentiment := 3/5
    news := []
    crashWarningShown := false
    crashProbability := 0
    crashSeverity := 1/2 }

/-- A crash schedule with the historical March 2000 crash date. -/
def exEvents : CrashEvents :=
  { warningDate := some ⟨2000, 1, 15⟩
    crashDate := some ⟨2000, 3, 15⟩
    peakIndex := 0 }

/-- A stock whose recorded peak price sits below the 0.1 price floor. -/
def lowPeakStock : Stock :=
  { id := "failcorp"
    name := "FailCorp"
    symbol := "FAIL"
    description := "a stock with a peak price below the price floor"
    category := "Tech"
    price := 10
    initialPrice := 10
    peakPrice := 1/20
    volatility := VolatilityTier.medium
    survivalChance := SurvivalTier.medium
    priceHistory := [{ date := exDate, price := 10 }]
    news := [] }

/-- An ordinary stock with a peak price above the floor. -/
def okStock : Stock :=
  { id := "okcorp"
    name := "OkCorp"
    symbol := "OK"
    description := "an ordinary stock"
    category := "Tech"
    price := 10
    initialPrice := 10
    peakPrice := 100
    volatility := VolatilityTier.medium
    survivalChance := SurvivalTier.medium
    priceHistory := [{ date := exDate, price := 10 }]
    news := [] }

/-- A fresh simulation state holding only `lowPeakStock`. -/
def lowPeakState : SimState :=
  { market := exMarketEarly
    stocks := [lowPeakStock]
    events := exEvents
    gameOver := false }

/-- A market already in the crash stage. -/
def crashMarket : MarketState :=
  { currentDate := ⟨2002, 6, 1⟩
    marketIndex := 500
    marketIndexHistory := [{ date := exDate, price := 1000 }, { date := ⟨2002, 6, 1⟩, price := 500 }]
    bubbleStage := BubbleStage.crash
    volatility := 1
    sentiment := 1/10
    news := []
    crashWarningShown := true
    crashProbability := 19/20
    crashSeverity := 1 }

/-- A crashed simulation state. -/
def crashState : SimState :=
  { market := crashMarket
    stocks := [okStock]
    events := exEvents
    gameOver := false }

/-- Stock draws whose base perturbation is exactly zero. -/
def halfBaseStockRands : StockRands :=
  { uBase := 1/2, uMarket := 0, uMania := 0, uCrashImpact := 0, uBankrupt := 0, uClamp := 0 }

/-- Market draws for a quiet tick. -/
def exMarketRands : MarketRands :=
  { now := 0, uCrashRoll := 1, uCrashSent := 0, uLadderSent := 0, uIndex := 0, uGameOver := 0 }

/-- Tick draws pairing the quiet market draws with the zero-base stock
draws. -/
def exTickRands : TickRands :=
  { m := exMarketRands, s := fun _ => halfBaseStockRands }

/-- Crash-timing draws taking the randomized 2002-2004 branch. -/
def exCrashRands : CrashRands :=
  { uUserMonth := 0, uChoice := 1/2, uYear := 1/3, uMonth := 0, uWarn := 0 }

/-- An empty portfolio with starting cash. -/
def exTrade : TradeState := { portfolio := [], cash := 10000 }

/-- A portfolio holding five shares of `okStock` and no cash. -/
def exTradeHeld : TradeState := { portfolio := [("okcorp", 5)], cash := 0 }

/-- The warning-count invariant: a state never carries more than one
bubble-warning item, and carries none while the flag is down. -/
def warnInv (st : SimState) : Prop :=
  countWarnings st.market.news + (if st.market.crashWarningShown then 0 else 1) ≤ 1

/-! ### Helper lemmas -/

lemma stageSelect_fst_of_crash (c : Bool) (events : CrashEvents) (prev : MarketState)
    (nd : SimDate) (u1 u2 : ℚ) (h : prev.bubbleStage = BubbleStage.crash) :
    (stageSelect c events prev nd u1 u2).1 = BubbleStage.crash := by
  cases c <;> simp [stageSelect, h]

lemma stageSelectSep_fst_of_crash (c : Bool) (events : CrashEvents) (prev : MarketState)
    (nd : SimDate) (u1 u2 : ℚ) (h : prev.bubbleStage = BubbleStage.crash) :
    (stageSelectSep c events prev nd u1 u2).1 = BubbleStage.crash := by
  cases c <;> simp [stageSelectSep, h]

lemma advanceSimulationStep_stage_crash (settings : SimulationSettings) (st : SimState)
    (r : TickRands) (h : st.market.bubbleStage = BubbleStage.crash) :
    (advanceSimulationStep settings st r).market.bubbleStage = BubbleStage.crash := by
  unfold advanceSimulationStep
  split
  · exact h
  · exact stageSelect_fst_of_crash _ _ _ _ _ _ h

lemma advanceToNextDayStep_stage_crash (settings : SimulationSettings) (st : SimState)
    (r : TickRands) (h : st.market.bubbleStage = BubbleStage.crash) :
    (advanceToNextDayStep settings st r).market.bubbleStage = BubbleStage.crash := by
  unfold advanceToNextDayStep
  split
  · exact h
  · exact stageSelect_fst_of_crash _ _ _ _ _ _ h

lemma tickStep_stage_crash (settings : SimulationSettings) (st : SimState)
    (i : Bool × TickRands) (h : st.market.bubbleStage = BubbleStage.crash) :
    (tickStep settings st i).market.bubbleStage = BubbleStage.crash := by
  unfold tickStep
  split
  · exact advanceToNextDayStep_stage_crash _ _ _ h
  · exact advanceSimulationStep_stage_crash _ _ _ h

lemma runTicks_stage_crash (settings : SimulationSettings) (ins : List (Bool × TickRands)) :
    ∀ st : SimState, st.market.bubbleStage = BubbleStage.crash →
      (runTicks settings st ins).market.bubbleStage = BubbleStage.crash := by
  induction ins with
  | nil => intro st h; exact h
  | cons i is ih => intro st h; exact ih _ (tickStep_stage_crash _ _ _ h)

lemma gameOverCheck_iff (s : BubbleStage) (ni pi : ℚ) (y : Int) (u : ℚ) :
    gameOverCheck s ni pi y u = true ↔
      (s = BubbleStage.crash ∧ ni < pi * (7/10) ∧ 2002 ≤ y ∧ (19/20 : ℚ) < u) := by
  simp [gameOverCheck, and_assoc]

lemma advanceSimulationMarket_gameOverSet (settings : SimulationSettings)
    (events : CrashEvents) (prev : MarketState) (r : MarketRands) :
    (advanceSimulationMarket settings events prev r).gameOverSet =
      gameOverCheck (advanceSimulationMarket settings events prev r).market.bubbleStage
        (advanceSimulationMarket settings events prev r).market.marketIndex
        prev.marketIndex
        (advanceSimulationMarket settings events prev r).market.currentDate.year
        r.uGameOver := rfl

lemma advanceToNextDayMarket_gameOverSet (settings : SimulationSettings)
    (events : CrashEvents) (prev : MarketState) (r : MarketRands) :
    (advanceToNextDayMarket settings events prev r).gameOverSet =
      gameOverCheck (advanceToNextDayMarket settings events prev r).market.bubbleStage
        (advanceToNextDayMarket settings events prev r).market.marketIndex
        prev.marketIndex
        (advanceToNextDayMarket settings events prev r).market.currentDate.year
        r.uGameOver := rfl

lemma countWarnings_newsFinal (c w : Bool) (now : Nat) (nd : SimDate) (news : List NewsItem) :
    countWarnings
      (if c then
        crashNewsItem now nd :: (if w then warningNewsItem now nd :: news else news)
      else (if w then warningNewsItem now nd :: news else news)) =
      countWarnings news + (if w then 1 else 0) := by
  cases c <;> cases w <;>
    simp [countWarnings, warningNewsItem, crashNewsItem, warningHeadline, crashHeadline,
      List.countP_cons]

lemma countWarnings_advanceSimulationMarket (settings : SimulationSettings)
    (events : CrashEvents) (prev : MarketState) (r : MarketRands) :
    countWarnings (advanceSimulationMarket settings events prev r).market.news =
      countWarnings prev.news +
        (if warningFires events prev (addDays prev.currentDate settings.timeScale) then 1
         else 0) :=
  countWarnings_newsFinal _ _ _ _ _

lemma countWarnings_advanceToNextDayMarket (settings : SimulationSettings)
    (events : CrashEvents) (prev : MarketState) (r : MarketRands) :
    countWarnings (advanceToNextDayMarket settings events prev r).market.news =
      countWarnings prev.news +
        (if warningFires events prev (addDays prev.currentDate 1) then 1 else 0) :=
  countWarnings_newsFinal _ _ _ _ _

lemma advanceSimulationMarket_flag (settings : SimulationSettings) (events : CrashEvents)
    (prev : MarketState) (r : MarketRands) :
    (advanceSimulationMarket settings events prev r).market.crashWarningShown =
      (warningFires events prev (addDays prev.currentDate settings.timeScale) ||
        prev.crashWarningShown) := rfl

lemma advanceToNextDayMarket_flag (settings : SimulationSettings) (events : CrashEvents)
    (prev : MarketState) (r : MarketRands) :
    (advanceToNextDayMarket settings events prev r).market.crashWarningShown =
      (warningFires events prev (addDays prev.currentDate 1) || prev.crashWarningShown) := rfl

lemma warningFires_of_shown (events : CrashEvents) (prev : MarketState) (nd : SimDate)
    (h : prev.crashWarningShown = true) : warningFires events prev nd = false := by
  unfold warningFires
  cases events.warningDate <;> simp [h]

lemma warningFires_not_shown (events : CrashEvents) (prev : MarketState) (nd : SimDate)
    (h : warningFires events prev nd = true) : prev.crashWarningShown = false := by
  unfold warningFires at h
  cases hw : events.warningDate with
  | none => rw [hw] at h; simp at h
  | some wd => rw [hw] at h; simp at h; exact h.2

lemma warnInv_advanceSimulationStep (settings : SimulationSettings) (st : SimState)
    (r : TickRands) (h : warnInv st) : warnInv (advanceSimulationStep settings st r) := by
  unfold advanceSimulationStep
  split
  · exact h
  · unfold warnInv at h ⊢
    have hmkt : (applyUpdate st (advanceSimulationMarket settings st.events st.market r.m)
        (List.mapIdx (fun i stock => updateStock settings st.market stock (r.s i))
          st.stocks)).market =
        (advanceSimulationMarket settings st.events st.market r.m).market := rfl
    rw [hmkt, countWarnings_advanceSimulationMarket, advanceSimulationMarket_flag]
    cases hw : warningFires st.events st.market (addDays st.market.currentDate settings.timeScale)
    · simpa using h
    · have hshown := warningFires_not_shown _ _ _ hw
      rw [hshown] at h
      simp at h ⊢
      omega

lemma warnInv_advanceToNextDayStep (settings : SimulationSettings) (st : SimState)
    (r : TickRands) (h : warnInv st) : warnInv (advanceToNextDayStep settings st r) := by
  unfold advanceToNextDayStep
  split
  · exact h
  · unfold warnInv at h ⊢
    have hmkt : (applyUpdate st (advanceToNextDayMarket settings st.events st.market r.m)
        (List.mapIdx (fun i stock => updateStockNextDay settings st.market stock (r.s i))
          st.stocks)).market =
        (advanceToNextDayMarket settings st.events st.market r.m).market := rfl
    rw [hmkt, countWarnings_advanceToNextDayMarket, advanceToNextDayMarket_flag]
    cases hw : warningFires st.events st.market (addDays st.market.currentDate 1)
    · simpa using h
    · have hshown := warningFires_not_shown _ _ _ hw
      rw [hshown] at h
      simp at h ⊢
      omega

lemma warnInv_tickStep (settings : SimulationSettings) (st : SimState)
    (i : Bool × TickRands) (h : warnInv st) : warnInv (tickStep settings st i) := by
  unfold tickStep
  split
  · exact warnInv_advanceToNextDayStep _ _ _ h
  · exact warnInv_advanceSimulationStep _ _ _ h

lemma warnInv_runTicks (settings : SimulationSettings) (ins : List (Bool × TickRands)) :
    ∀ st : SimState, warnInv st → warnInv (runTicks settings st ins) := by
  induction ins with
  | nil => intro st h; exact h
  | cons i is ih => intro st h; exact ih _ (warnInv_tickStep _ _ _ h)

lemma probSev_fst_before_crashDate (events : CrashEvents) (prev : MarketState) (nd : SimDate)
    (p : ℚ) (hcd : ∀ cd, events.crashDate = some cd → SimDate.le cd nd = false) :
    (probSevAfterCrashDate events prev nd p).1 = p := by
  unfold probSevAfterCrashDate
  cases h : events.crashDate with
  | none => rfl
  | some cd => simp [hcd cd h]

lemma advanceSimulationMarket_prob (settings : SimulationSettings) (events : CrashEvents)
    (prev : MarketState) (r : MarketRands) :
    (advanceSimulationMarket settings events prev r).market.crashProbability =
      (probSevAfterCrashDate events prev (addDays prev.currentDate settings.timeScale)
        (if warningFires events prev (addDays prev.currentDate settings.timeScale) then 3/10
         else prev.crashProbability)).1 := rfl

lemma price_floor_aux (c : Prop) [Decidable c] (peak u x : ℚ)
    (hpeak : (1/10 : ℚ) ≤ peak) (hu : 0 ≤ u) :
    (1/10 : ℚ) ≤ if c then peak * (1 + getRandomFloat 0 (1/2) u) else max (1/10) x := by
  split
  · have h0 : (0:ℚ) ≤ peak := le_trans (by norm_num) hpeak
    have hg : getRandomFloat 0 (1/2) u = u * (1/2) := by simp [getRandomFloat]
    rw [hg]
    nlinarith [mul_nonneg h0 hu]
  · exact le_max_left _ _

lemma lookupShares_setEntry (p : List (String × ℚ)) (k : String) (v : ℚ) :
    lookupShares (setEntry p k v) k = some v := by
  unfold setEntry
  by_cases h : p.any (fun e => decide (e.1 = k)) = true
  · rw [if_pos h]
    induction p with
    | nil => simp at h
    | cons e rest ih =>
      rcases e with ⟨a, b⟩
      by_cases hk : a = k
      · subst hk
        simp [lookupShares]
      · have hrest : rest.any (fun e => decide (e.1 = k)) = true := by
          simp only [List.any_cons] at h
          simpa [hk] using h
        simpa [lookupShares, hk] using ih hrest
  · rw [if_neg h]
    have h2 : ∀ e ∈ p, ¬(e.1 = k) := by
      intro e he
      simp only [List.any_eq_true, not_exists] at h
      push_neg at h
      intro hek
      exact absurd (by simpa [hek] using he) (by simpa [hek] using h e he)
    clear h
    induction p with
    | nil => simp [lookupShares]
    | cons e rest ih =>
      have hk := h2 e (by simp)
      simp only [List.cons_append, lookupShares, if_neg hk]
      exact ih (fun e he => h2 e (by simp [he]))

lemma lookupOr0_setEntry (p : List (String × ℚ)) (k : String) (v : ℚ) :
    lookupOr0 (setEntry p k v) k = v := by
  unfold lookupOr0
  rw [lookupShares_setEntry]
  rfl

lemma lookupShares_removeEntry (p : List (String × ℚ)) (k : String) :
    lookupShares (removeEntry p k) k = none := by
  unfold removeEntry
  induction p with
  | nil => rfl
  | cons e rest ih =>
    rcases e with ⟨a, b⟩
    by_cases hk : a = k
    · subst hk
      simpa [List.filter] using ih
    · simpa [List.filter, hk, lookupShares] using ih

/-! ### Claims -/

/-- C1: every tick of `advanceSimulation` or `advanceToNextDay` computes
the new market index as `max(100, previousIndex * (1 + indexChange))`, so
the stored index and the point appended to the index history are at least
100, for every state and every random draw. -/
theorem marketIndex_floor_invariant (settings : SimulationSettings) (events : CrashEvents)
    (prev : MarketState) (r : MarketRands) :
    100 ≤ (advanceSimulationMarket settings events prev r).market.marketIndex ∧
    100 ≤ (advanceToNextDayMarket settings events prev r).market.marketIndex ∧
    (advanceSimulationMarket settings events prev r).market.marketIndexHistory =
      prev.marketIndexHistory ++
        [{ date := addDays prev.currentDate settings.timeScale,
           price := (advanceSimulationMarket settings events prev r).market.marketIndex }] ∧
    (advanceToNextDayMarket settings events prev r).market.marketIndexHistory =
      prev.marketIndexHistory ++
        [{ date := addDays prev.currentDate 1,
           price := (advanceToNextDayMarket settings events prev r).market.marketIndex }] :=
  ⟨le_max_left _ _, le_max_left _ _, rfl, rfl⟩

/-- C2 (amended): the per-stock update keeps every new price (the stored
price, which is also the appended history value) at or above 0.1
PROVIDED the stock's `peakPrice` is itself at least 0.1: the outside-crash
clamp runs after the 0.1 floor and replaces the price by
`peakPrice * (1 + U(0, 0.5)) ≥ peakPrice`, so the floor survives exactly
when the peak price is not below it. -/
theorem stockPrice_floor_requires_peak_floor (settings : SimulationSettings)
    (market : MarketState) (stock : Stock) (r : StockRands)
    (hpeak : (1/10 : ℚ) ≤ stock.peakPrice) (hu : 0 ≤ r.uClamp) :
    (1/10 : ℚ) ≤ (updateStock settings market stock r).price ∧
    (1/10 : ℚ) ≤ (updateStockNextDay settings market stock r).price ∧
    (updateStock settings market stock r).priceHistory =
      stock.priceHistory ++
        [{ date := market.currentDate, price := (updateStock settings market stock r).price }] ∧
    (updateStockNextDay settings market stock r).priceHistory =
      stock.priceHistory ++
        [{ date := market.currentDate,
           price := (updateStockNextDay settings market stock r).price }] :=
  ⟨price_floor_aux _ _ _ _ hpeak hu, price_floor_aux _ _ _ _ hpeak hu, rfl, rfl⟩

/-- C2 (counterexample): one `advanceSimulation` tick on a fresh market
holding a stock with `peakPrice = 0.05` stores the price 0.05 < 0.1: the
floor is applied before the peak clamp, and the clamp then drops the price
below the floor again. -/
theorem stockPrice_floor_counterexample :
    (advanceSimulationStep defaultSettings lowPeakState exTickRands).stocks.map Stock.price =
      [1/20] ∧ ¬((1/10 : ℚ) ≤ 1/20) := by
  have hstocks : (advanceSimulationStep defaultSettings lowPeakState exTickRands).stocks =
      [updateStock defaultSettings exMarketEarly lowPeakStock halfBaseStockRands] := rfl
  have hprice : (updateStock defaultSettings exMarketEarly lowPeakStock halfBaseStockRands).price =
      1/20 := by
    unfold updateStock
    simp only [exMarketEarly, lowPeakStock, halfBaseStockRands, defaultSettings,
      getRandomFloat, getVolatilityFactor, getSurvivalFactor]
    split_ifs with h1 h2 h3 h4 h5 h6 h7 h8 <;> norm_num at * <;>
      exact absurd (by assumption) (by decide)
  rw [hstocks]
  simp [hprice]
  norm_num

/-- C3: the crash stage is absorbing. If the previous market state is in
stage `crash`, then for all draws the next state of `advanceSimulation`
(`part_008` and the `part_007` variant) and of `advanceToNextDay` is still
`crash`, and any run of further ticks from a crashed state stays in
`crash` — the calendar ladder is guarded away once the stage is `crash`. -/
theorem crash_stage_absorbing (settings : SimulationSettings) (events : CrashEvents)
    (prev : MarketState) (r : MarketRands) (st : SimState) (ins : List (Bool × TickRands))
    (h : prev.bubbleStage = BubbleStage.crash)
    (hst : st.market.bubbleStage = BubbleStage.crash) :
    (advanceSimulationMarket settings events prev r).market.bubbleStage = BubbleStage.crash ∧
    (advanceToNextDayMarket settings events prev r).market.bubbleStage = BubbleStage.crash ∧
    (advanceSimulationMarketP7 settings events prev r).market.bubbleStage = BubbleStage.crash ∧
    (runTicks settings st ins).market.bubbleStage = BubbleStage.crash :=
  ⟨stageSelect_fst_of_crash _ _ _ _ _ _ h, stageSelect_fst_of_crash _ _ _ _ _ _ h,
   stageSelectSep_fst_of_crash _ _ _ _ _ _ h, runTicks_stage_crash _ _ _ hst⟩

/-- C4: when the stock is found, buying `n` shares at price `p` with cash
`c ≥ n*p` subtracts exactly `n*p` from cash and adds exactly `n` to the
held-share count of that stock; with `c < n*p` the call leaves the whole
trade state unchanged. -/
theorem buyStock_cash_and_holdings (stocks : List Stock) (ts : TradeState) (stockId : String)
    (shares : ℚ) (stock : Stock)
    (hfind : stocks.find? (fun s => s.id == stockId) = some stock) :
    ((stock.price * shares ≤ ts.cash) →
      ((buyStock stocks ts stockId shares).cash = ts.cash - stock.price * shares ∧
       lookupOr0 (buyStock stocks ts stockId shares).portfolio stockId =
         lookupOr0 ts.portfolio stockId + shares)) ∧
    ((ts.cash < stock.price * shares) → buyStock stocks ts stockId shares = ts) := by
  unfold buyStock
  rw [hfind]
  dsimp only
  constructor
  · intro hc
    rw [if_neg (not_lt.mpr hc)]
    exact ⟨rfl, lookupOr0_setEntry _ _ _⟩
  · intro hc
    rw [if_pos hc]

/-- C5: selling more shares than held (with a non-negative held count)
caps the sale at the held quantity: cash grows by `price * held`, the
resulting holding is never negative, and when the held count was positive
the entry — whose count reaches zero — is removed from the portfolio. -/
theorem sellStock_caps_at_held (stocks : List Stock) (ts : TradeState) (stockId : String)
    (shares : ℚ) (stock : Stock)
    (hfind : stocks.find? (fun s => s.id == stockId) = some stock)
    (hmore : lookupOr0 ts.portfolio stockId < shares)
    (hnn : 0 ≤ lookupOr0 ts.portfolio stockId) :
    (sellStock stocks ts stockId shares).cash =
      ts.cash + stock.price * lookupOr0 ts.portfolio stockId ∧
    0 ≤ lookupOr0 (sellStock stocks ts stockId shares).portfolio stockId ∧
    (0 < lookupOr0 ts.portfolio stockId →
      lookupShares (sellStock stocks ts stockId shares).portfolio stockId = none) := by
  unfold sellStock
  rw [hfind]
  dsimp only
  have hmin : min shares (lookupOr0 ts.portfolio stockId) = lookupOr0 ts.portfolio stockId :=
    min_eq_right (le_of_lt hmore)
  rw [hmin]
  by_cases h0 : lookupOr0 ts.portfolio stockId ≤ 0
  · have hz : lookupOr0 ts.portfolio stockId = 0 := le_antisymm h0 hnn
    rw [if_pos h0]
    refine ⟨by rw [hz]; ring, hnn, ?_⟩
    intro hpos
    rw [hz] at hpos
    exact absurd hpos (lt_irrefl 0)
  · rw [if_neg h0]
    have hsub : lookupOr0 ts.portfolio stockId - lookupOr0 ts.portfolio stockId ≤ 0 := by
      rw [sub_self]
    rw [if_pos hsub]
    refine ⟨rfl, ?_, fun _ => lookupShares_removeEntry _ _⟩
    unfold lookupOr0
    rw [lookupShares_removeEntry]
    norm_num

/-- C6: with unit-interval draws, `determineCrashTiming` (a) defaults the
crash date to March 2000 (day 15) when no crash year is configured and the
randomness draw fails, (b) when the randomness draw succeeds picks the
crash year uniformly in 2002-2004 and the month in 1-12, and (c) in every
case places the warning date exactly 1-3 months before the crash date,
borrowing a year when the month subtraction drops to zero or below. -/
theorem determineCrashTiming_schedule (settings : SimulationSettings) (r : CrashRands)
    (hy0 : 0 ≤ r.uYear) (hy1 : r.uYear < 1)
    (hm0 : 0 ≤ r.uMonth) (hm1 : r.uMonth < 1)
    (hw0 : 0 ≤ r.uWarn) (hw1 : r.uWarn < 1) :
    (settings.crashYear = none → ¬(r.uChoice < settings.crashRandomness) →
      (determineCrashTiming settings r).crashDate = some ⟨2000, 3, 15⟩) ∧
    (settings.crashYear = none → r.uChoice < settings.crashRandomness →
      ∃ y m, (determineCrashTiming settings r).crashDate = some ⟨y, m, 15⟩ ∧
        (y = 2002 ∨ y = 2003 ∨ y = 2004) ∧ 1 ≤ m ∧ m ≤ 12) ∧
    (∃ cy cm k, (determineCrashTiming settings r).crashDate = some ⟨cy, cm, 15⟩ ∧
      1 ≤ k ∧ k ≤ 3 ∧
      (determineCrashTiming settings r).warningDate =
        some (if cm - k ≤ 0 then ⟨cy - 1, cm - k + 12, 15⟩ else ⟨cy, cm - k, 15⟩)) := by
  have hky0 : 0 ≤ Int.floor (r.uYear * 3) := Int.floor_nonneg.mpr (by positivity)
  have hky1 : Int.floor (r.uYear * 3) < 3 := Int.floor_lt.mpr (by push_cast; linarith)
  have hkm0 : 0 ≤ Int.floor (r.uMonth * 12) := Int.floor_nonneg.mpr (by positivity)
  have hkm1 : Int.floor (r.uMonth * 12) < 12 := Int.floor_lt.mpr (by push_cast; linarith)
  have hkw0 : 0 ≤ Int.floor (r.uWarn * 3) := Int.floor_nonneg.mpr (by positivity)
  have hkw1 : Int.floor (r.uWarn * 3) < 3 := Int.floor_lt.mpr (by push_cast; linarith)
  refine ⟨?_, ?_, ?_⟩
  · intro hnone hnot
    unfold determineCrashTiming crashYearMonth
    rw [hnone]
    dsimp only
    rw [if_neg hnot]
  · intro hnone hlt
    refine ⟨Int.floor (r.uYear * 3) + 2002, Int.floor (r.uMonth * 12) + 1, ?_, by omega,
      by omega, by omega⟩
    unfold determineCrashTiming crashYearMonth
    rw [hnone]
    dsimp only
    rw [if_pos hlt]
  · refine ⟨(crashYearMonth settings r).1, (crashYearMonth settings r).2,
      Int.floor (r.uWarn * 3) + 1, rfl, by omega, by omega, ?_⟩
    unfold determineCrashTiming
    dsimp only
    by_cases hw : (crashYearMonth settings r).2 - (Int.floor (r.uWarn * 3) + 1) ≤ 0
    · rw [if_pos hw, if_pos hw]
    · rw [if_neg hw, if_neg hw]

/-- C7: the fixed bubble-warning item is emitted at most once per run —
(1) any run from a state with the flag down and no warning item ends with
at most one warning item in the news; (2) once the flag is up, every
further tick keeps it up and adds no warning item; (3) the first tick
whose new date reaches the warning date raises the flag, emits exactly one
warning item, and (when the crash date has not also been reached) sets the
crash probability to 0.3. -/
theorem bubble_warning_at_most_once :
    (∀ (settings : SimulationSettings) (st0 : SimState) (ins : List (Bool × TickRands)),
      st0.market.crashWarningShown = false →
      countWarnings st0.market.news = 0 →
      countWarnings (runTicks settings st0 ins).market.news ≤ 1) ∧
    (∀ (settings : SimulationSettings) (st : SimState) (i : Bool × TickRands),
      st.market.crashWarningShown = true →
      (tickStep settings st i).market.crashWarningShown = true ∧
      countWarnings (tickStep settings st i).market.news = countWarnings st.market.news) ∧
    (∀ (settings : SimulationSettings) (events : CrashEvents) (prev : MarketState)
      (r : MarketRands) (wd : SimDate),
      prev.crashWarningShown = false →
      events.warningDate = some wd →
      SimDate.le wd (addDays prev.currentDate settings.timeScale) = true →
      (advanceSimulationMarket settings events prev r).market.crashWarningShown = true ∧
      countWarnings (advanceSimulationMarket settings events prev r).market.news =
        countWarnings prev.news + 1 ∧
      ((∀ cd, events.crashDate = some cd →
          SimDate.le cd (addDays prev.currentDate settings.timeScale) = false) →
        (advanceSimulationMarket settings events prev r).market.crashProbability = 3/10)) := by
  refine ⟨?_, ?_, ?_⟩
  · intro settings st0 ins hflag hcount
    have h0 : warnInv st0 := by unfold warnInv; rw [hflag, hcount]; simp
    have h1 := warnInv_runTicks settings ins st0 h0
    unfold warnInv at h1
    omega
  · intro settings st i h
    unfold tickStep
    split
    · unfold advanceToNextDayStep
      split
      · exact ⟨h, rfl⟩
      · constructor
        · have hf := advanceToNextDayMarket_flag settings st.events st.market i.2.m
          have hmkt : (applyUpdate st (advanceToNextDayMarket settings st.events st.market i.2.m)
              (List.mapIdx (fun j stock => updateStockNextDay settings st.market stock (i.2.s j))
                st.stocks)).market.crashWarningShown =
              (advanceToNextDayMarket settings st.events st.market i.2.m).market.crashWarningShown :=
            rfl
          rw [hmkt, hf, h]
          simp
        · have hmkt : (applyUpdate st (advanceToNextDayMarket settings st.events st.market i.2.m)
              (List.mapIdx (fun j stock => updateStockNextDay settings st.market stock (i.2.s j))
                st.stocks)).market.news =
              (advanceToNextDayMarket settings st.events st.market i.2.m).market.news := rfl
          rw [hmkt, countWarnings_advanceToNextDayMarket,
            warningFires_of_shown st.events st.market _ h]
          simp
    · unfold advanceSimulationStep
      split
      · exact ⟨h, rfl⟩
      · constructor
        · have hf := advanceSimulationMarket_flag settings st.events st.market i.2.m
          have hmkt : (applyUpdate st (advanceSimulationMarket settings st.events st.market i.2.m)
              (List.mapIdx (fun j stock => updateStock settings st.market stock (i.2.s j))
                st.stocks)).market.crashWarningShown =
              (advanceSimulationMarket settings st.events st.market i.2.m).market.crashWarningShown :=
            rfl
          rw [hmkt, hf, h]
          simp
        · have hmkt : (applyUpdate st (advanceSimulationMarket settings st.events st.market i.2.m)
              (List.mapIdx (fun j stock => updateStock settings st.market stock (i.2.s j))
                st.stocks)).market.news =
              (advanceSimulationMarket settings st.events st.market i.2.m).market.news := rfl
          rw [hmkt, countWarnings_advanceSimulationMarket,
            warningFires_of_shown st.events st.market _ h]
          simp
  · intro settings events prev r wd hshown hwd hle
    have hfire : warningFires events prev (addDays prev.currentDate settings.timeScale) = true := by
      unfold warningFires
      rw [hwd]
      simp [hle, hshown]
    refine ⟨?_, ?_, ?_⟩
    · rw [advanceSimulationMarket_flag, hfire]
      rfl
    · rw [countWarnings_advanceSimulationMarket, hfire]
      simp
    · intro hcd
      rw [advanceSimulationMarket_prob, probSev_fst_before_crashDate _ _ _ _ hcd, hfire]
      rfl

/-- C8 (amended): `resetSimulation` restores the market index to exactly
1000, the date to the first day of the configured start year and month,
the stage to `early`, the index history and each stock's price history to
a single seed point, and clears the market and stock news histories to
empty (not to a single seed entry). -/
theorem resetSimulation_restores_seed_state (settings : SimulationSettings) (stock : Stock)
    (initialStocks : List Stock) (r : CrashRands) :
    (resetMarket settings).marketIndex = 1000 ∧
    (resetMarket settings).currentDate = ⟨settings.startYear, settings.startMonth, 1⟩ ∧
    (resetMarket settings).bubbleStage = BubbleStage.early ∧
    (resetMarket settings).marketIndexHistory =
      [{ date := ⟨settings.startYear, settings.startMonth, 1⟩, price := 1000 }] ∧
    (resetMarket settings).news = [] ∧
    (resetStock settings stock).price = stock.initialPrice ∧
    (resetStock settings stock).priceHistory =
      [{ date := ⟨settings.startYear, settings.startMonth, 1⟩, price := stock.initialPrice }] ∧
    (resetStock settings stock).news = [] ∧
    (resetSimulation settings initialStocks r).market = resetMarket settings ∧
    (resetSimulation settings initialStocks r).stocks =
      initialStocks.map (resetStock settings) ∧
    (resetSimulation settings initialStocks r).gameOver = false :=
  ⟨rfl, rfl, rfl, rfl, rfl, rfl, rfl, rfl, rfl, rfl, rfl⟩

/-- C8 (counterexample): after a reset the market news history is empty,
not a single seed entry — its length is 0, refuting the claim that every
history is replaced by one seed entry. -/
theorem resetSimulation_news_counterexample :
    (resetMarket defaultSettings).news.length ≠ 1 := by
  decide

/-- C9: on a tick that runs (game not already over), the game-over flag
ends up set exactly when all four conditions hold together: the new stage
is `crash`, the new index is below 0.7 times the previous index, the year
of the new date is at least 2002, and the game-over draw exceeds 0.95 —
otherwise the flag keeps its previous (false) value. -/
theorem gameOver_iff_crash_conditions (settings : SimulationSettings) (st : SimState)
    (r : TickRands) (h : st.gameOver = false) :
    ((advanceSimulationStep settings st r).gameOver = true ↔
      ((advanceSimulationMarket settings st.events st.market r.m).market.bubbleStage =
          BubbleStage.crash ∧
       (advanceSimulationMarket settings st.events st.market r.m).market.marketIndex <
          st.market.marketIndex * (7/10) ∧
       2002 ≤ (advanceSimulationMarket settings st.events st.market r.m).market.currentDate.year ∧
       (19/20 : ℚ) < r.m.uGameOver)) ∧
    ((advanceToNextDayStep settings st r).gameOver = true ↔
      ((advanceToNextDayMarket settings st.events st.market r.m).market.bubbleStage =
          BubbleStage.crash ∧
       (advanceToNextDayMarket settings st.events st.market r.m).market.marketIndex <
          st.market.marketIndex * (7/10) ∧
       2002 ≤ (advanceToNextDayMarket settings st.events st.market r.m).market.currentDate.year ∧
       (19/20 : ℚ) < r.m.uGameOver)) := by
  constructor
  · have e1 : (advanceSimulationStep settings st r).gameOver =
        (advanceSimulationMarket settings st.events st.market r.m).gameOverSet := by
      simp [advanceSimulationStep, applyUpdate, h]
    rw [e1, advanceSimulationMarket_gameOverSet, gameOverCheck_iff]
  · have e1 : (advanceToNextDayStep settings st r).gameOver =
        (advanceToNextDayMarket settings st.events st.market r.m).gameOverSet := by
      simp [advanceToNextDayStep, applyUpdate, h]
    rw [e1, advanceToNextDayMarket_gameOverSet, gameOverCheck_iff]

/-- C10: with `timeScale = 1`, `advanceToNextDay` computes exactly the
same market update, the same per-stock update, and the same full state
transition as `advanceSimulation` — the two functions differ only in
advancing the date by 1 day versus by `timeScale` days. -/
theorem advanceToNextDay_matches_advanceSimulation (settings : SimulationSettings)
    (h : settings.timeScale = 1) :
    (∀ events prev r, advanceToNextDayMarket settings events prev r =
      advanceSimulationMarket settings events prev r) ∧
    (∀ market stock r, updateStockNextDay settings market stock r =
      updateStock settings market stock r) ∧
    (∀ st r, advanceToNextDayStep settings st r = advanceSimulationStep settings st r) := by
  have hm : ∀ events prev r, advanceToNextDayMarket settings events prev r =
      advanceSimulationMarket settings events prev r := by
    intro e p r
    simp only [advanceToNextDayMarket, advanceSimulationMarket, h]
  have hs : ∀ market stock r, updateStockNextDay settings market stock r =
      updateStock settings market stock r := fun _ _ _ => rfl
  refine ⟨hm, hs, fun st r => ?_⟩
  simp only [advanceToNextDayStep, advanceSimulationStep, hm, hs]

/-- C2 witness. -/
theorem stockPrice_floor_witness :
    (1/10 : ℚ) ≤ (updateStock defaultSettings exMarketEarly okStock halfBaseStockRands).price :=
  (stockPrice_floor_requires_peak_floor defaultSettings exMarketEarly okStock halfBaseStockRands
    (by norm_num [okStock]) (by norm_num [halfBaseStockRands])).1

/-- C3 witness. -/
theorem crash_stage_absorbing_witness :
    (advanceSimulationMarket defaultSettings exEvents crashMarket exMarketRands).market.bubbleStage =
      BubbleStage.crash ∧
    (advanceToNextDayMarket defaultSettings exEvents crashMarket exMarketRands).market.bubbleStage =
      BubbleStage.crash ∧
    (advanceSimulationMarketP7 defaultSettings exEvents crashMarket
      exMarketRands).market.bubbleStage = BubbleStage.crash ∧
    (runTicks defaultSettings crashState []).market.bubbleStage = BubbleStage.crash :=
  crash_stage_absorbing defaultSettings exEvents crashMarket exMarketRands crashState [] rfl rfl

/-- C4 witness. -/
theorem buyStock_cash_and_holdings_witness :
    (buyStock [okStock] exTrade "okcorp" 10).cash = exTrade.cash - okStock.price * 10 ∧
    lookupOr0 (buyStock [okStock] exTrade "okcorp" 10).portfolio "okcorp" =
      lookupOr0 exTrade.portfolio "okcorp" + 10 :=
  (buyStock_cash_and_holdings [okStock] exTrade "okcorp" 10 okStock rfl).1
    (by norm_num [okStock, exTrade])

/-- C5 witness. -/
theorem sellStock_caps_at_held_witness :
    (sellStock [okStock] exTradeHeld "okcorp" 10).cash =
      exTradeHeld.cash + okStock.price * lookupOr0 exTradeHeld.portfolio "okcorp" ∧
    0 ≤ lookupOr0 (sellStock [okStock] exTradeHeld "okcorp" 10).portfolio "okcorp" ∧
    (0 < lookupOr0 exTradeHeld.portfolio "okcorp" →
      lookupShares (sellStock [okStock] exTradeHeld "okcorp" 10).portfolio "okcorp" = none) :=
  sellStock_caps_at_held [okStock] exTradeHeld "okcorp" 10 okStock rfl
    (by norm_num [exTradeHeld, lookupOr0, lookupShares])
    (by norm_num [exTradeHeld, lookupOr0, lookupShares])

/-- C6 witness. -/
theorem determineCrashTiming_schedule_witness :
    ∃ cy cm k,
      (determineCrashTiming defaultSettings exCrashRands).crashDate = some ⟨cy, cm, 15⟩ ∧
      1 ≤ k ∧ k ≤ 3 ∧
      (determineCrashTiming defaultSettings exCrashRands).warningDate =
        some (if cm - k ≤ 0 then ⟨cy - 1, cm - k + 12, 15⟩ else ⟨cy, cm - k, 15⟩) :=
  (determineCrashTiming_schedule defaultSettings exCrashRands
    (by norm_num [exCrashRands]) (by norm_num [exCrashRands]) (by norm_num [exCrashRands])
    (by norm_num [exCrashRands]) (by norm_num [exCrashRands]) (by norm_num [exCrashRands])).2.2

/-- C7 witness. -/
theorem bubble_warning_at_most_once_witness :
    countWarnings (runTicks defaultSettings lowPeakState [(false, exTickRands)]).market.news ≤ 1 :=
  bubble_warning_at_most_once.1 defaultSettings lowPeakState [(false, exTickRands)] rfl rfl

/-- C9 witness. -/
theorem gameOver_iff_crash_conditions_witness :
    ((advanceSimulationStep defaultSettings lowPeakState exTickRands).gameOver = true ↔
      ((advanceSimulationMarket defaultSettings lowPeakState.events lowPeakState.market
          exTickRands.m).market.bubbleStage = BubbleStage.crash ∧
       (advanceSimulationMarket defaultSettings lowPeakState.events lowPeakState.market
          exTickRands.m).market.marketIndex < lowPeakState.market.marketIndex * (7/10) ∧
       2002 ≤ (advanceSimulationMarket defaultSettings lowPeakState.events lowPeakState.market
          exTickRands.m).market.currentDate.year ∧
       (19/20 : ℚ) < exTickRands.m.uGameOver)) ∧
    ((advanceToNextDayStep defaultSettings lowPeakState exTickRands).gameOver = true ↔
      ((advanceToNextDayMarket defaultSettings lowPeakState.events lowPeakState.market
          exTickRands.m).market.bubbleStage = BubbleStage.crash ∧
       (advanceToNextDayMarket defaultSettings lowPeakState.events lowPeakState.market
          exTickRands.m).market.marketIndex < lowPeakState.market.marketIndex * (7/10) ∧
       2002 ≤ (advanceToNextDayMarket defaultSettings lowPeakState.events lowPeakState.market
          exTickRands.m).market.currentDate.year ∧
       (19/20 : ℚ) < exTickRands.m.uGameOver)) :=
  gameOver_iff_crash_conditions defaultSettings lowPeakState exTickRands rfl

/-- C10 witness. -/
theorem advanceToNextDay_matches_advanceSimulation_witness :
    advanceToNextDayStep defaultSettings lowPeakState exTickRands =
      advanceSimulationStep defaultSettings lowPeakState exTickRands :=
  (advanceToNextDay_matches_advanceSimulation defaultSettings rfl).2.2 lowPeakState exTickRands
